import Mathlib

/-!
Verification development for the discord-ui interaction-routing and
command-synchronization subsystem.

The definitions below are a shallow embedding of the Python source:

* `discord_ui/slash/types.py` — `format_name`, `SlashOption`, `SlashPermission`,
  `BaseCommand`, `SlashCommand`, `SlashSubcommand`, `ContextCommand`;
* `discord_ui/enums.py` — `OptionType.any_to_type`;
* `discord_ui/client.py` — `Slash.gather_commands`, `Slash.add_global_command`,
  `Slash.add_guild_command`, `Components.add_listening_component`.

Python strings are modeled as lists of Unicode code points (`List Nat`), with
the ASCII case mapping for `str.lower` (the source only ever lowercases
command/option names, which are ASCII identifiers).  Python dicts holding
command/option JSON are modeled as records whose optional fields are `Option`
values (`none` models an absent key).  A Python function that can raise is
modeled as an `Except`-valued function; a function with no `raise` statement is
modeled as total.
-/

set_option maxRecDepth 4000

/-- Code points of a string literal, the model of a Python `str`. -/
def strN (s : String) : List Nat := s.data.map Char.toNat

/-- ASCII case mapping of a single code point, modeling `str.lower` per
character (names handled by the library are ASCII). -/
def lowerN (c : Nat) : Nat := if 65 ≤ c ∧ c ≤ 90 then c + 32 else c

/-- Model of `str.replace(old, new)` for single-character arguments:
`replace` substitutes every occurrence. -/
def replaceN (old new : Nat) (s : List Nat) : List Nat :=
  s.map (fun c => if c = old then new else c)

/-- Model of `format_name` (slash/types.py line 17):
`str(value).lower().replace(" ", "-")`. -/
def format_name (s : List Nat) : List Nat :=
  replaceN 32 45 (s.map lowerN)

/-- Model of the `SlashOption.name` setter normalization (slash/types.py
line 131): `value.lower().replace(" ", "_")`. -/
def option_name_format (s : List Nat) : List Nat :=
  replaceN 32 95 (s.map lowerN)

/-! ## OptionType.any_to_type (enums.py lines 97-142) -/

/-- Class objects that can reach `any_to_type`'s `inspect.isclass` branch
(enums.py lines 102-120).  `cother` stands for any class with no mapping. -/
inductive ClassTok where
  | cstr | cint | cbool | cfloat
  | cuser | cmember
  | ctextchannel | cvoicechannel | cstagechannel | ccategorychannel
  | crole | cmentionable
  | cother
deriving DecidableEq, Repr

/-- Inputs `any_to_type` is called on.  `pyOptionType n` is an already
resolved `OptionType` member (an `IntEnum`, hence also an `int` with value
`n`); `pyBool` is a Python `bool` (a subclass of `int` with value 0 or 1);
`pyNone` is `None`. -/
inductive PyInput where
  | pyInt (n : Int)
  | pyBool (b : Bool)
  | pyOptionType (n : Nat)
  | pyStr (s : List Nat)
  | pyClass (c : ClassTok)
  | pyList (cs : List ClassTok)
  | pyNone
deriving DecidableEq, Repr

/-- Integer value used by the `isinstance(whatever, int)` branch; `none` when
the input is not a Python `int`. -/
def PyInput.intVal : PyInput → Option Int
  | .pyInt n => some n
  | .pyBool b => some (if b then 1 else 0)
  | .pyOptionType n => some n
  | _ => none

/-- Model of `OptionType.any_to_type` (enums.py lines 97-142).  Returns the
option-kind code (1-10) when a mapping exists and `none` otherwise: the
Python function has no `raise` statement and falls off the end, implicitly
returning `None`, for unmapped inputs. -/
def any_to_type (whatever : PyInput) : Option Nat :=
  -- isinstance(whatever, int) and whatever in range(1, 11)
  match whatever.intVal with
  | some n =>
    if 1 ≤ n ∧ n ≤ 10 then some n.toNat
    else
      -- an out-of-range int reaches no further branch: isclass, str and
      -- list checks all fail, so the function returns None
      none
  | none =>
    match whatever with
    | .pyClass c =>
      match c with
      | .cstr => some 3
      | .cint => some 4
      | .cbool => some 5
      | .cuser => some 6
      | .cmember => some 6
      | .ctextchannel => some 7
      | .cvoicechannel => some 7
      | .cstagechannel => some 7
      | .ccategorychannel => some 7
      | .crole => some 8
      | .cmentionable => some 9
      | .cfloat => some 10
      | .cother => none
    | .pyStr s =>
      let w := s.map lowerN
      if [strN "str", strN "string", strN "text", strN "char[]"].contains w then some 3
      else if [strN "int", strN "integer", strN "number"].contains w then some 4
      else if [strN "bool", strN "boolean"].contains w then some 5
      else if [strN "user", strN "discord.user", strN "member",
               strN "discord.member", strN "usr", strN "mbr"].contains w then some 6
      else if [strN "channel"].contains w then some 7
      else if [strN "role", strN "discord.role"].contains w then some 8
      else if [strN "mentionable", strN "mention"].contains w then some 9
      else if [strN "float", strN "floating", strN "floating number",
               strN "f"].contains w then some 10
      else none
    | .pyList _ => some 7   -- any list maps to Channel (enums.py lines 139-142)
    | _ => none

/-- Modeled from the spec: the family of inputs the spec describes as having a
mapping — native types, string aliases, in-range integers (including bools and
already-resolved kinds, which are ints in Python), channel-class lists and the
supported class objects.  Used to compare the spec's description of
`any_to_type`'s domain with the code. -/
def spec_has_mapping (whatever : PyInput) : Bool :=
  match whatever.intVal with
  | some n => decide (1 ≤ n ∧ n ≤ 10)
  | none =>
    match whatever with
    | .pyClass c => decide (c ≠ .cother)
    | .pyStr s =>
      let w := s.map lowerN
      if [strN "str", strN "string", strN "text", strN "char[]"].contains w then true
      else if [strN "int", strN "integer", strN "number"].contains w then true
      else if [strN "bool", strN "boolean"].contains w then true
      else if [strN "user", strN "discord.user", strN "member",
               strN "discord.member", strN "usr", strN "mbr"].contains w then true
      else if [strN "channel"].contains w then true
      else if [strN "role", strN "discord.role"].contains w then true
      else if [strN "mentionable", strN "mention"].contains w then true
      else if [strN "float", strN "floating", strN "floating number",
               strN "f"].contains w then true
      else false
    | .pyList _ => true
    | _ => false

/-! ## SlashOption (slash/types.py lines 20-221)

A `SlashOption` object is its `_json` dict plus, at runtime, the
choice-generator attachments (`choice_generator` attribute and the owner's
`__choice_generators__` name-keyed map).  `OptJson` models one option dict;
the `genAttached` flag models whether a generator is associated with this
node by its owner (for nodes below the first nesting level the flag is
always `false`, because `to_dict` serializes only `_json` and generator
attachments are lost when an option is stored as a plain dict). -/

/-- A choice entry `{"name": ..., "value": ...}`; values modeled as ints. -/
structure Choice where
  cname : List Nat
  cvalue : Int
deriving DecidableEq, Repr

/-- The `_json` dict of a `SlashOption` (plus the generator flag).  `none` in
an `Option`-typed field models an absent key. -/
inductive OptJson where
  | mk (type? : Option Nat) (oname : List Nat) (descr : List Nat)
       (req : Option Bool) (choices : Option (List Choice))
       (auto : Option Bool) (genAttached : Bool)
       (options : Option (List OptJson)) : OptJson

def OptJson.type? : OptJson → Option Nat
  | .mk t _ _ _ _ _ _ _ => t
def OptJson.oname : OptJson → List Nat
  | .mk _ n _ _ _ _ _ _ => n
def OptJson.descr : OptJson → List Nat
  | .mk _ _ d _ _ _ _ _ => d
def OptJson.req : OptJson → Option Bool
  | .mk _ _ _ r _ _ _ _ => r
def OptJson.choices : OptJson → Option (List Choice)
  | .mk _ _ _ _ c _ _ _ => c
def OptJson.auto : OptJson → Option Bool
  | .mk _ _ _ _ _ a _ _ => a
def OptJson.genAttached : OptJson → Bool
  | .mk _ _ _ _ _ _ g _ => g
def OptJson.options : OptJson → Option (List OptJson)
  | .mk _ _ _ _ _ _ _ o => o

/-- The `required` getter: `self._json.get("required", False)`. -/
def OptJson.requiredGet (d : OptJson) : Bool := d.req.getD false

/-- The `autocomplete` getter: `self._json.get("autocomplete", False)`.
The getter reads only `_json`; it does not consult the generator. -/
def OptJson.autoGet (d : OptJson) : Bool := d.auto.getD false

/- Clears generator attachments below the top of a stored option tree:
`to_dict` returns only `_json`, so when an option object is serialized into
an owner's `_json["options"]`, every generator attached inside it is lost
(only the owner's name-keyed map, modeled by the top-level `genAttached`
flag, survives, rebuilt from the passed objects by the `options` setter). -/
mutual

def clearGDeep : OptJson → OptJson
  | .mk t n d r c a _ o => .mk t n d r c a false (clearGDeepOpts o)

def clearGDeepOpts : Option (List OptJson) → Option (List OptJson)
  | none => none
  | some l => some (clearGDeepList l)

def clearGDeepList : List OptJson → List OptJson
  | [] => []
  | x :: xs => clearGDeep x :: clearGDeepList xs

end

/-- Storing a list of option objects/dicts into an owner's `_json["options"]`
(the `options` setter, slash/types.py lines 187-199): each element is
serialized via `to_dict` (losing nested generator attachments) while the
owner's `__choice_generators__` map records the element's own generator,
modeled by keeping the element's top-level `genAttached` flag. -/
def storeOptions (l : List OptJson) : List OptJson :=
  l.map (fun x => match clearGDeep x with
    | .mk t n d r c a _ o => .mk t n d r c a x.genAttached o)

/-- Argument-type resolution in the `argument_type` setter (slash/types.py
line 118): `getattr(value, "value", OptionType.any_to_type(value))`.  An
`OptionType` member supplies `.value`; anything else goes through
`any_to_type`, whose `none` result is stored as-is (the setter does not
validate). -/
def argResolve : PyInput → Option Nat
  | .pyOptionType n => some n
  | i => any_to_type i

/-- Errors raised by the modeled declaration-time code. -/
inductive DeclErr where
  | invalidLength (field : List Nat)
  | wrongType (field : List Nat)
  | noAsyncCallback
  | missingOptionParameter (p : List Nat)
  | optionalOptionParameter (p : List Nat)
  | callbackMissingContextCommandParameters
  | missingListenedComponentParameters
  | invalidArgumentRaise
deriving DecidableEq, Repr

/-- Model of `SlashOption.__init__` (slash/types.py lines 49-71).
`genAttached` is `choice_generator is not None`.  Setter order follows the
source: `argument_type`, `name` (may raise `InvalidLength`), `description`
(`_or(description, self.name)`, may raise `InvalidLength`), `required`,
`options` (`_default([], options)`), `autocomplete`, then `choices`, which
keeps the supplied list only when the computed autocomplete flag is `False`
(the setter ignores a non-list value, so `None` leaves the key absent). -/
def SlashOption.init (argument_type : PyInput) (nameArg : List Nat)
    (descriptionArg : Option (List Nat)) (required : Bool)
    (choicesArg : Option (List Choice)) (autocompleteArg : Option Bool)
    (genAttached : Bool) (optionsArg : Option (List OptJson)) :
    Except DeclErr OptJson :=
  -- autocomplete = autocomplete or choice_generator is not None
  let auto : Bool := (autocompleteArg == some true) || genAttached
  -- self.name = name  (setter: length 1-32, lower + underscores)
  if nameArg.length > 32 || nameArg.length < 1 then
    .error (.invalidLength (strN "name"))
  else
    let nm := option_name_format nameArg
    -- self.description = _or(description, self.name)  (setter: length 1-100)
    let dsE : Except DeclErr (List Nat) :=
      match descriptionArg with
      | some d =>
        if d.length > 100 || d.length < 1 then
          .error (.invalidLength (strN "description"))
        else
          .ok d
      | none => .ok nm
    match dsE with
    | .error e => .error e
    | .ok ds =>
      -- self.options = _default([], options);
      -- self.choices = choices if self.autocomplete is False else None
      .ok (.mk (argResolve argument_type) nm ds (some required)
            (if auto then none else choicesArg) (some auto) genAttached
            (some (storeOptions (optionsArg.getD []))))

/-- The `autocomplete` setter (slash/types.py lines 208-210): stores the raw
value, touching nothing else. -/
def SlashOption.setAutocomplete (d : OptJson) (v : Bool) : OptJson :=
  match d with
  | .mk t n ds r c _ g o => .mk t n ds r c (some v) g o

/-- The `choices` setter (slash/types.py lines 170-178) for a list of choice
dicts: stores the list, touching nothing else. -/
def SlashOption.setChoices (d : OptJson) (v : List Choice) : OptJson :=
  match d with
  | .mk t n ds r _ a g o => .mk t n ds r (some v) a g o

/-! ## SlashOption equality (slash/types.py lines 74-105)

The `options` property getter (lines 181-186) does not return the stored
dicts: it rebuilds a fresh `SlashOption` per stored dict via `_from_data`,
re-running `__init__`.  On the rebuilt object the stored scalar fields are
the constructor-normalized images of the dict's fields.  `reconType` and
`OptJson.reconAuto` compute those images; the `...Norm` comparison functions
below model `__eq__` invoked on such rebuilt objects (every nesting level
below the top of a comparison), while `optEqObj` and later `cmdEqDict` model
`__eq__` on the actual top-level objects.  On a malformed stored dict
(type not resolvable, out-of-range lengths) the Python getter would raise
inside `OptionType(...)` or a length check; the model compares the fields
totally instead, which agrees with the source on every state produced by the
modeled constructors. -/

/-- Image of the stored `type` value after `_from_data` re-runs the
`argument_type` setter: an in-range int resolves to itself via
`any_to_type`, anything else resolves to `None`. -/
def reconType : Option Nat → Option Nat
  | some n => if 1 ≤ n ∧ n ≤ 10 then some n else none
  | none => none

/-- Autocomplete flag of the rebuilt option: `__init__` computes
`autocomplete or choice_generator is not None`, the generator being supplied
from the owner's name-keyed map (modeled by `genAttached`). -/
def OptJson.reconAuto (d : OptJson) : Bool := d.autoGet || d.genAttached

mutual

/-- Model of `SlashOption.__eq__` with another `SlashOption` (slash/types.py
lines 75-88) where both sides are rebuilt options coming from an `options`
getter: compares `argument_type`, `name`, `description`, `required`,
`choices` and `options` — not `autocomplete`. -/
def optEqObjNorm : OptJson → OptJson → Bool
  | .mk t n ds r c au g o, .mk t' n' ds' r' c' au' g' o' =>
    (reconType t == reconType t')
    && (option_name_format n == option_name_format n')
    && (ds == ds')
    && ((r.getD false) == (r'.getD false))
    && decide ((if au.getD false || g then none else c)
               = (if au'.getD false || g' then none else c'))
    && (match o, o' with
        | none, none => true
        | none, some l' => l'.isEmpty
        | some l, none => l.isEmpty
        | some l, some l' => optEqObjList l l')

/-- Elementwise list equality on rebuilt options (Python `list.__eq__`,
false on a length mismatch). -/
def optEqObjList : List OptJson → List OptJson → Bool
  | [], [] => true
  | x :: xs, y :: ys => optEqObjNorm x y && optEqObjList xs ys
  | _, _ => false

end

/-- Model of `SlashOption.__eq__` with another `SlashOption` (slash/types.py
lines 75-88) on the actual objects: `argument_type`, `name`, `description`,
`required` and `choices` are compared from the stored state; the `options`
getters rebuild the children, so the nested comparison goes through
`optEqObjNorm`.  The `autocomplete` field is not compared. -/
def optEqObj (a b : OptJson) : Bool :=
  (a.type? == b.type?)
  && (a.oname == b.oname)
  && (a.descr == b.descr)
  && (a.requiredGet == b.requiredGet)
  && decide (a.choices = b.choices)
  && optEqObjList (a.options.getD []) (b.options.getD [])

/-- A raw option dict returned by the remote API: `type` and `name` are
always present (the code indexes them unconditionally); the rest may be
absent. -/
inductive ApiOpt where
  | mk (atype : Nat) (aname : List Nat) (adescr : Option (List Nat))
       (areq : Option Bool) (achoices : Option (List Choice))
       (aauto : Option Bool) (aoptions : Option (List ApiOpt)) : ApiOpt

mutual

/-- Model of `SlashOption.__eq__` with a dict (slash/types.py lines 89-104),
the `self` side being a rebuilt option from an `options` getter.  Mirrors the
source conjunct by conjunct, including the two-sided defaults
`o.get("choices", [])` / `o.get("choices", None)` (and likewise for
`options`), and the `autocomplete` comparison present only in this branch. -/
def optEqDict : OptJson → ApiOpt → Bool
  | d, .mk t n ds r c a o =>
    (reconType d.type? == some t)
    && (option_name_format d.oname == n)
    && (match ds with
        | some x => d.descr == x
        | none => false)     -- a str never equals None
    && (d.requiredGet == r.getD false)
    && (let selfChoices : Option (List Choice) :=
          if d.reconAuto then none else d.choices
        (match selfChoices with
         | some l => decide (l = c.getD [])
         | none => false)
        || decide (selfChoices = c))
    && (match o with
        | none => (d.options.getD []).isEmpty
        | some l => optEqDictList (d.options.getD []) l)
    && (d.reconAuto == a.getD false)

/-- Elementwise comparison of a rebuilt-options list against an API dict
list (Python `list.__eq__`, each pair compared through the reflected
`SlashOption.__eq__`). -/
def optEqDictList : List OptJson → List ApiOpt → Bool
  | [], [] => true
  | x :: xs, y :: ys => optEqDict x y && optEqDictList xs ys
  | _, _ => false

end

/-! ## SlashPermission (slash/types.py lines 227-335) -/

/-- One permission overwrite entry `{"id": ..., "type": 1|2,
"permission": bool}`. -/
structure PermEntry where
  pid : Int
  ptype : Nat
  permission : Bool
deriving DecidableEq, Repr

/-- The `allowed` property: entries whose `permission` is `True`. -/
def permAllowed (l : List PermEntry) : List PermEntry :=
  l.filter (fun e => e.permission)

/-- The `forbidden` property: entries whose `permission` is `False`. -/
def permForbidden (l : List PermEntry) : List PermEntry :=
  l.filter (fun e => !e.permission)

/-- Index-wise equality of two entry lists after a length check, modeling
`len(a) == len(b) and all(a[i] == b[i] for i, _ in enumerate(a))`. -/
def permPairwise (a b : List PermEntry) : Bool :=
  a.length == b.length && (a.zip b).all (fun p => p.1 == p.2)

/-- Model of `SlashPermission.__eq__` against a dict `o` holding a
`"permissions"` list (slash/types.py lines 313-320): the local entries and
the remote entries are each split into allowed/forbidden sublists and the
sublists are compared index by index — order-sensitively. -/
def slashPermissionEqDict (selfJson remotePermissions : List PermEntry) : Bool :=
  let oAllowed := permAllowed remotePermissions
  let oForbidden := permForbidden remotePermissions
  permPairwise (permAllowed selfJson) oAllowed
  && permPairwise (permForbidden selfJson) oForbidden

/-- Modeled from the spec: two permission lists describe the same set of
`(target_id, target_kind, allow)` triples (membership in both directions,
ignoring order and multiplicity).  Spec-side definition used to compare the
spec's set-equivalence wording against `slashPermissionEqDict`. -/
def sameTripleSet (p r : List PermEntry) : Bool :=
  p.all (fun e => r.contains e) && r.all (fun e => p.contains e)

/-! ## BaseCommand / SlashCommand / ContextCommand
(slash/types.py lines 338-670) -/

/-- Value stored under `default_permission`: a bool, or a permission bitmask
kept as a string (stored stringified from a `discord.Permissions`). -/
inductive PermVal where
  | pb (b : Bool)
  | ps (n : Int)
deriving DecidableEq, Repr

/-- The `_json` dict of a command.  `description` and `options` are absent
for context commands (their overriding setters never store the keys). -/
structure CmdJson where
  ctype : Nat
  cmdName : List Nat
  cmdDescr : Option (List Nat)
  cmdOptions : Option (List OptJson)
  defaultPermission : Option PermVal

/-- A command object: its `_json` plus the attributes living outside the
dict.  `permissions` is the `SlashPermission._json` list of the
`permissions` attribute; `guildPermissions` maps guild ids to such lists.
Generator attachments live in the stored options' `genAttached` flags
(modeling `__choice_generators__`). -/
structure CommandObj where
  json : CmdJson
  guildIds : Option (List Int)
  guildPermissions : Option (List (Int × List PermEntry))
  permissions : List PermEntry

/-- A raw command dict returned by the remote API. -/
structure ApiCmd where
  aid : Nat
  acname : List Nat
  actype : Nat
  acdescr : Option (List Nat)
  acoptions : Option (List ApiOpt)
  acdefaultPermission : Option PermVal

/-- The `default_permission` getter (slash/types.py lines 525-535):
`_json.get("default_permission", False)`, converting a stored string to a
`discord.Permissions` object. -/
def CommandObj.defaultPermissionGet (c : CommandObj) : PermVal :=
  c.json.defaultPermission.getD (.pb false)

/-- Comparison of the getter value against the raw API value
`o.get("default_permission", True)`: two bools compare by value; a
`discord.Permissions` object never equals a bool or a string, and a raw
string never equals a bool. -/
def permValEqRaw : PermVal → PermVal → Bool
  | .pb a, .pb b => a == b
  | _, _ => false

/-- The `description` getter seen by `__eq__`: context commands
(types 2 and 3) override it to return `""`; a chat command reads
`_json["description"]`. -/
def CommandObj.descriptionGet (c : CommandObj) : Option (List Nat) :=
  if c.json.ctype == 1 then c.json.cmdDescr else some []

/-- The `options` getter seen by `__eq__`: context commands override it to
return `[]`; a chat command rebuilds from `_json.get("options", [])`. -/
def CommandObj.optionsStored (c : CommandObj) : List OptJson :=
  if c.json.ctype == 1 then c.json.cmdOptions.getD [] else []

/-- Model of `BaseCommand.__eq__` against a dict (slash/types.py lines
406-414): compares `type`, `name`, `description`, `options` (elementwise,
each stored option rebuilt by the getter and compared with the raw dict via
the reflected `SlashOption.__eq__`) and `default_permission` with default
`True` on the dict side.  This is the check `api_command != base` used by
the synchronizer. -/
def cmdEqDict (c : CommandObj) (o : ApiCmd) : Bool :=
  (o.actype == c.json.ctype)
  && (o.acname == c.json.cmdName)
  && (match c.descriptionGet, o.acdescr with
      | some d, some d' => d == d'
      | none, none => true      -- None == None (missing description key)
      | _, _ => false)
  && (match o.acoptions with
      | none => (c.optionsStored).isEmpty
      | some l => optEqDictList c.optionsStored l)
  && permValEqRaw c.defaultPermissionGet (o.acdefaultPermission.getD (.pb true))

/-! ## Synchronizer (client.py lines 326-482)

`add_global_command` and `add_guild_command` are modeled as functions from
the declared command and the remote state to the list of HTTP calls they
issue, in order.  The remote state records the registered global commands,
the registered commands per guild, and the permission overwrites per
(guild, command id). -/

/-- Remote command API state consulted by the synchronizer's reads. -/
structure RemoteState where
  globals : List ApiCmd
  guildCmds : List (Int × List ApiCmd)
  perms : List ((Int × Nat) × List PermEntry)

/-- One HTTP call issued through `SlashHTTP` (slash/http.py). -/
inductive Call where
  | getGlobalCommands
  | getGuildCommands (gid : Int)
  | getCommandPermissions (cid : Nat) (gid : Int)
  | createGlobalCommand (payload : CmdJson)
  | editGlobalCommand (cid : Nat) (payload : CmdJson)
  | deleteGlobalCommand (cid : Nat)
  | createGuildCommand (payload : CmdJson) (gid : Int) (permissions : List PermEntry)
  | editGuildCommand (cid : Nat) (gid : Int) (payload : CmdJson)
      (permissions : List PermEntry)
  | updateCommandPermissions (gid : Int) (cid : Nat) (permissions : List PermEntry)

/-- Whether a call writes remote state (everything except the three reads). -/
def Call.isWrite : Call → Bool
  | .getGlobalCommands | .getGuildCommands _ | .getCommandPermissions _ _ => false
  | _ => true

/-- The write calls of a trace, in order. -/
def writesOf (l : List Call) : List Call := l.filter Call.isWrite

/-- Lookup by `(name, type)` in a command list, modeling the loops of
`_get_global_api_command` / `_get_guild_api_command` (client.py lines
326-336): first dict whose `"name"` and `"type"` equal the requested ones. -/
def findApiCommand (cmds : List ApiCmd) (name : List Nat) (typ : Nat) :
    Option ApiCmd :=
  cmds.find? (fun x => x.acname == name && x.actype == typ)

/-- Commands registered in one guild (empty when the bot has none there). -/
def RemoteState.guild (st : RemoteState) (gid : Int) : List ApiCmd :=
  (st.guildCmds.lookup gid).getD []

/-- Permission overwrites of one command in one guild;
`get_command_permissions` returns an empty overwrite list on a 404
(slash/http.py lines 72-76). -/
def RemoteState.permsOf (st : RemoteState) (gid : Int) (cid : Nat) :
    List PermEntry :=
  (st.perms.lookup (gid, cid)).getD []

/-- Model of `Slash.add_global_command` (client.py lines 438-453): fetch the
global command with the declared name and type; create when absent, edit
when present and `api_command != base`, do nothing further when equal. -/
def add_global_command (st : RemoteState) (base : CommandObj) : List Call :=
  Call.getGlobalCommands ::
  (match findApiCommand st.globals base.json.cmdName base.json.ctype with
   | none => [Call.createGlobalCommand base.json]
   | some api =>
     if !(cmdEqDict base api) then [Call.editGlobalCommand api.aid base.json]
     else [])

/-- Model of `Slash.add_guild_command` (client.py lines 454-482): fetch the
guild command (and, when present, its permission overwrites) and the global
command of the same name and type.  When no guild command exists or a global
one does, any global copy is deleted and the guild command is created fresh
(with its permissions); otherwise the command is edited when it differs by
value, else its permissions are updated when they differ, else nothing is
written. -/
def add_guild_command (st : RemoteState) (base : CommandObj) (gid : Int) :
    List Call :=
  let apiCommand := findApiCommand (st.guild gid) base.json.cmdName base.json.ctype
  let globalCommand := findApiCommand st.globals base.json.cmdName base.json.ctype
  [Call.getGuildCommands gid]
  ++ (match apiCommand with
      | some api => [Call.getCommandPermissions api.aid gid]
      | none => [])
  ++ [Call.getGlobalCommands]
  ++ (if apiCommand.isNone || globalCommand.isSome then
        (match globalCommand with
         | some g => [Call.deleteGlobalCommand g.aid]
         | none => [])
        ++ [Call.createGuildCommand base.json gid base.permissions]
      else
        match apiCommand with
        | some api =>
          if !(cmdEqDict base api) then
            [Call.editGuildCommand api.aid gid base.json base.permissions]
          else if !(slashPermissionEqDict base.permissions
                     (st.permsOf gid api.aid)) then
            [Call.updateCommandPermissions gid api.aid base.permissions]
          else []
        | none => [])

/-! ## BaseCommand.__init__ (slash/types.py lines 340-403),
ContextCommand (lines 633-652), listening components (client.py
lines 1182-1216) -/

/-- One parameter of a Python callback, as seen through
`inspect.signature`: its name, optional annotation, and optional default
(only the default's type matters to the code, via `type(_val.default)`). -/
structure PyParam where
  parName : List Nat
  annot : Option PyInput
  hasDefault : Bool
  defaultType : PyInput
deriving Repr

/-- A Python callback: whether it is a coroutine function, its ordered
parameters, its `__name__`, and the first docstring line (if any). -/
structure PyCallback where
  isCoroutine : Bool
  params : List PyParam
  cbName : List Nat
  docstringFirst : Option (List Nat)
deriving Repr

/-- Lookup of `callback_params.get(name)`. -/
def findParam (ps : List PyParam) (name : List Nat) : Option PyParam :=
  ps.find? (fun p => p.parName == name)

/-- The parameter walk of the automatic option builder (slash/types.py lines
363-383): skip every parameter named `self`, skip the context parameter at
index `1 if has_self else 0` (indices count all parameters), and keep the
rest in order. -/
def autoOptionParams (ps : List PyParam) : List PyParam :=
  go ps 0 false
where
  go : List PyParam → Nat → Bool → List PyParam
    | [], _, _ => []
    | p :: rest, i, hasSelf =>
      if p.parName == strN "self" then go rest (i + 1) true
      else if i == (if hasSelf then 1 else 0) then go rest (i + 1) hasSelf
      else p :: go rest (i + 1) hasSelf

/-- Option kind hint taken from one parameter (slash/types.py lines
373-379): the annotation if present, else the type of the default value if
present, else the parameter's own name as a string. -/
def paramOpType (p : PyParam) : PyInput :=
  match p.annot with
  | some a => a
  | none => if p.hasDefault then p.defaultType else .pyStr p.parName

/-- Builds the automatic options from the remaining parameters (slash/
types.py lines 380-382): a `None` from `any_to_type` raises (the source
names `InvalidArgument`, which is not imported in types.py — the model
carries the raise as `invalidArgumentRaise`); otherwise a `SlashOption`
with the parameter's name, required iff the parameter has no default. -/
def buildAutoOptions : List PyParam → Except DeclErr (List OptJson)
  | [] => pure []
  | p :: rest => do
    if (any_to_type (paramOpType p)).isNone then
      throw .invalidArgumentRaise
    let op ← SlashOption.init (paramOpType p) p.parName none (!p.hasDefault)
      none none false none
    let ops ← buildAutoOptions rest
    pure (op :: ops)

/-- The option/parameter consistency walk of slash/types.py lines 356-361:
every declared option needs a callback parameter of the same name, and a
parameter bound to a non-required option needs a default value. -/
def checkOptionParams (cb : PyCallback) : List OptJson → Except DeclErr Unit
  | [] => pure ()
  | op :: rest => do
    let nm := option_name_format op.oname
    match findParam cb.params nm with
    | none => throw (.missingOptionParameter nm)
    | some p =>
      if !op.requiredGet && !p.hasDefault then
        throw (.optionalOptionParameter p.parName)
      else
        checkOptionParams cb rest

/-- Sequencing of two fallible steps: the Python control flow "a raise
propagates, otherwise execution continues with the value". -/
def exceptStep {α β : Type} (x : Except DeclErr α)
    (f : α → Except DeclErr β) : Except DeclErr β :=
  match x with
  | .error e => .error e
  | .ok a => f a

/-- A value that must be present, Python raising `err` on `None`. -/
def optionStep {α β : Type} (x : Option α) (err : DeclErr)
    (f : α → Except DeclErr β) : Except DeclErr β :=
  match x with
  | none => .error err
  | some a => f a

/-- Model of `BaseCommand.__init__` (slash/types.py lines 340-403).
`ctxVariant` selects the `ContextCommand` subclass whose overriding
`description`/`options` setters are silent no-ops and whose getters return
`""`/`[]`, so the corresponding `_json` keys are never stored.  Order
follows the source: store options; reject a non-coroutine callback; check
option/parameter consistency; build automatic options for a chat command
declared without any; then name (normalized through `format_name` for chat
commands), description (`_or(description, first docstring line, name)`),
`default_permission` (defaulting to `True`), guild permissions, the empty
`permissions` object and `guild_ids`. -/
def BaseCommand.init (ctxVariant : Bool) (commandType : Nat)
    (callback : Option PyCallback) (name : Option (List Nat))
    (description : Option (List Nat)) (optionsArg : List OptJson)
    (guildIds : Option (List Int)) (defaultPermission : Option PermVal)
    (guildPermissions : Option (List (Int × List PermEntry))) :
    Except DeclErr CommandObj :=
  -- self.options = _default([], options)  (no-op setter on a context command)
  let storedOptions : Option (List OptJson) :=
    if ctxVariant then none else some (storeOptions optionsArg)
  let optionsSeenByGetter : List OptJson :=
    if ctxVariant then [] else storeOptions optionsArg
  -- callback validation and the automatic option builder
  let cbStep : Except DeclErr (Option (List OptJson)) :=
    match callback with
    | none => .ok storedOptions
    | some cb =>
      if !cb.isCoroutine then .error .noAsyncCallback
      else
        exceptStep (checkOptionParams cb optionsSeenByGetter) (fun _ =>
          -- if self.options in [[], None] and command_type is CommandType.Slash
          if optionsSeenByGetter.isEmpty && commandType == 1 then
            exceptStep (buildAutoOptions (autoOptionParams cb.params)) (fun ops =>
              -- self.options = _ops (still the no-op setter on a context command)
              .ok (if ctxVariant then none else some (storeOptions ops)))
          else .ok storedOptions)
  exceptStep cbStep (fun finalOptions =>
    -- self.name = _or(name, self.callback.__name__)
    optionStep
      (match name with
       | some n => some n
       | none => callback.map PyCallback.cbName)
      DeclErr.invalidArgumentRaise   -- unimported InvalidArgument
      (fun rawName =>
      if rawName.length > 32 || rawName.length < 1 then
        .error (.invalidLength (strN "name"))
      else
        let storedName := if commandType == 1 then format_name rawName else rawName
        -- self.description = _or(description, docstring line, self.name)
        let descrVal : List Nat :=
          match description with
          | some d => d
          | none =>
            match callback.bind (fun cb => cb.docstringFirst) with
            | some d => d
            | none => storedName
        exceptStep
          (if ctxVariant then .ok none   -- overriding setter: pass
           else if descrVal.length > 100 || descrVal.length < 1 then
             .error (.invalidLength (strN "description"))
           else .ok (some descrVal))
          (fun storedDescr =>
          .ok
            { json :=
                { ctype := commandType
                  cmdName := storedName
                  cmdDescr := storedDescr
                  cmdOptions := finalOptions
                  defaultPermission := some (defaultPermission.getD (.pb true)) }
              guildIds := guildIds
              guildPermissions := guildPermissions
              permissions := [] })))

/-- Model of `SlashCommand.__init__` (slash/types.py lines 586-605). -/
def SlashCommand.init (callback : Option PyCallback) (name : Option (List Nat))
    (description : Option (List Nat)) (optionsArg : List OptJson)
    (guildIds : Option (List Int)) (defaultPermission : Option PermVal)
    (guildPermissions : Option (List (Int × List PermEntry))) :
    Except DeclErr CommandObj :=
  BaseCommand.init false 1 callback name description optionsArg guildIds
    defaultPermission guildPermissions

/-- Model of `ContextCommand.__init__` (slash/types.py lines 634-639):
rejects a callback with fewer than two parameters, then runs
`BaseCommand.__init__` with the overriding no-op setters (no description or
options arguments exist on this constructor). -/
def ContextCommand.init (contextType : Nat) (callback : Option PyCallback)
    (name : Option (List Nat)) (guildIds : Option (List Int))
    (defaultPermission : Option PermVal)
    (guildPermissions : Option (List (Int × List PermEntry))) :
    Except DeclErr CommandObj :=
  match callback with
  | some cb =>
    if cb.params.length < 2 then
      .error .callbackMissingContextCommandParameters
    else
      BaseCommand.init true contextType callback name none [] guildIds
        defaultPermission guildPermissions
  | none =>
    BaseCommand.init true contextType callback name none [] guildIds
      defaultPermission guildPermissions

/-- The overriding `ContextCommand.description` getter (slash/types.py
lines 641-643): always the empty string. -/
def ContextCommand.descriptionGet (_ : CommandObj) : List Nat := []

/-- The overriding `ContextCommand.description` setter (lines 644-646):
`pass` — the state is returned unchanged. -/
def ContextCommand.descriptionSet (c : CommandObj) (_ : List Nat) :
    CommandObj := c

/-- The overriding `ContextCommand.options` getter (lines 647-649): always
the empty list. -/
def ContextCommand.optionsGet (_ : CommandObj) : List OptJson := []

/-- The overriding `ContextCommand.options` setter (lines 650-652): `pass`
— the state is returned unchanged. -/
def ContextCommand.optionsSet (c : CommandObj) (_ : List OptJson) :
    CommandObj := c

/-- A registered component listener (cogs.py `ListeningComponent`,
constructed in client.py line 1216). -/
structure ListeningComponent where
  cb : PyCallback
  messages : Option (List Int)
  users : Option (List Int)
  componentType : Option Nat
  customId : List Nat

/-- The listener table: `custom_id` mapped to listeners in registration
order. -/
abbrev ListenerTable := List (List Nat × List ListeningComponent)

/-- Model of `Components.add_listening_component` (client.py lines
1182-1216): a non-coroutine callback raises `NoAsyncCallback`, a callback
with no parameter raises `MissingListenedComponentParameters`, both before
the table is touched; otherwise the listener is appended to its custom id's
list (created on first use). -/
def add_listening_component (table : ListenerTable) (callback : PyCallback)
    (customId : List Nat) (messages : Option (List Int))
    (users : Option (List Int)) (componentType : Option Nat) :
    Except DeclErr ListenerTable :=
  if !callback.isCoroutine then
    .error .noAsyncCallback
  else if callback.params.length < 1 then
    .error .missingListenedComponentParameters
  else
    let lc : ListeningComponent :=
      ⟨callback, messages, users, componentType, customId⟩
    match table.lookup customId with
    | none => .ok (table ++ [(customId, [lc])])
    | some old =>
      .ok (table.map (fun kv =>
        if kv.1 == customId then (kv.1, old ++ [lc]) else kv))

/-! ## Slash.gather_commands (client.py lines 355-407)

`gather_commands` starts from `self.commands.copy()` — a **shallow** dict
copy, so the command objects themselves are shared with the registry.  For
a base that already exists in the registry, the in-place
`commands[_base].options += [...]` appends therefore write through to the
registry's own command object.  The model returns both the produced dict
and the registry's commands after the call. -/

/-- Image of a stored option dict under the `options` getter followed by
`to_dict` (rebuild through `_from_data` + `__init__`, then re-serialize):
type re-resolved, name re-normalized, `required` and `autocomplete`
canonicalized, choices dropped when the rebuilt option autocompletes,
absent nested options materialized as `[]`. -/
def reconD : OptJson → OptJson
  | .mk t n ds r c a g o =>
    let au := a.getD false || g
    .mk (reconType t) (option_name_format n) ds (some (r.getD false))
        (if au then none else c) (some au) g
        (some (storeOptions (o.getD [])))

/-- Model of `SlashSubcommand.to_option` (slash/types.py lines 623-624):
`SlashOption(SUB_COMMAND, self.name, self.description,
options=self.options or None, required=False)`.  The `options` getter
rebuilds the stored children, and the new option's setter re-serializes
them. -/
def subToOption (s : CommandObj) : OptJson :=
  let nm := option_name_format s.json.cmdName
  .mk (some 1) nm (s.json.cmdDescr.getD nm) (some false) none (some false)
      false (some (storeOptions ((s.json.cmdOptions.getD []).map reconD)))

/-- The `SUB_COMMAND_GROUP` wrapper option synthesized by `gather_commands`
(client.py lines 387 and 391): `SlashOption(SUB_COMMAND_GROUP, _sub,
options=[...])` — its description defaults to its (normalized) name. -/
def groupWrapOption (subName : List Nat) (inner : List OptJson) : OptJson :=
  let nm := option_name_format subName
  .mk (some 2) nm nm (some false) none (some false) false
      (some (storeOptions inner))

/-- In-place `commands[_base].options += [x]` (client.py lines 402 and 387):
the getter rebuilds the stored options, the appended object is added, and
the setter re-serializes the whole list into `_json`. -/
def cmdAppendOption (c : CommandObj) (x : OptJson) : CommandObj :=
  let newOpts := some (storeOptions ((c.json.cmdOptions.getD []).map reconD ++ [x]))
  { c with json := { c.json with cmdOptions := newOpts } }

/-- The group-merge of client.py lines 377-383: rebuild the base's options,
find the option named like the group, append the subcommand's option to its
nested options (again through getter + setter), and store the whole list
back.  Returns `none` when no option carries that name (the `index == -1`
case, handled by the caller). -/
def cmdMergeIntoGroup (c : CommandObj) (subName : List Nat)
    (inner : OptJson) : Option CommandObj :=
  let L := (c.json.cmdOptions.getD []).map reconD
  match L.findIdx? (fun x => x.oname == subName) with
  | none => none
  | some i =>
    match L.get? i with
    | none => none
    | some e =>
      let e' : OptJson :=
        match e with
        | .mk t n ds r ch a g o =>
          .mk t n ds r ch a g
            (some (storeOptions ((o.getD []).map reconD ++ [inner])))
      let newOpts := some (storeOptions (L.set i e'))
      some { c with json := { c.json with cmdOptions := newOpts } }

/-- The base command synthesized when a plain subcommand has no declared
base (client.py line 406): `SlashCommand(None, _base, options=[sub.to_dict()],
guild_ids=sub.guild_ids, default_permission=sub.default_permission,
guild_permissions=sub.guild_permissions)`; its description defaults to its
name. -/
def freshBaseFromSub (baseKey : List Nat) (s : CommandObj) : CommandObj :=
  let nm := format_name baseKey
  { json :=
      { ctype := 1, cmdName := nm, cmdDescr := some nm
        cmdOptions := some (storeOptions [subToOption s])
        defaultPermission := some s.defaultPermissionGet }
    guildIds := s.guildIds
    guildPermissions := s.guildPermissions
    permissions := [] }

/-- The base command synthesized when a grouped subcommand has no declared
base (client.py lines 390-393). -/
def freshBaseFromGroup (baseKey subName : List Nat) (g : CommandObj) :
    CommandObj :=
  let nm := format_name baseKey
  { json :=
      { ctype := 1, cmdName := nm, cmdDescr := some nm
        cmdOptions := some (storeOptions [groupWrapOption subName [subToOption g]])
        defaultPermission := some g.defaultPermissionGet }
    guildIds := g.guildIds
    guildPermissions := g.guildPermissions
    permissions := [] }

/-- One entry of the second level of the `subcommands` cache: either a plain
subcommand or a group (a dict from subcommand name to subcommand). -/
inductive SubEntry where
  | single (s : CommandObj)
  | group (gs : List (List Nat × CommandObj))

/-- The state `gather_commands` reads: the `commands` dict (name → command)
and the `subcommands` dict (base → sub/group name → entry), both in
insertion order. -/
structure Registry where
  commands : List (List Nat × CommandObj)
  subcommands : List (List Nat × List (List Nat × SubEntry))

/-- Insert-or-replace in an insertion-ordered dict (a replaced key keeps its
position, a new key is appended — Python dict semantics). -/
def aupdate (l : List (List Nat × CommandObj)) (key : List Nat)
    (val : CommandObj) : List (List Nat × CommandObj) :=
  if (l.lookup key).isSome then
    l.map (fun kv => if kv.1 == key then (key, val) else kv)
  else
    l ++ [(key, val)]

/-- Processing of one second-level entry of the `subcommands` cache against
the evolving output dict (client.py lines 362-406). -/
def gatherStep (out : List (List Nat × CommandObj)) (baseKey : List Nat)
    (entry : List Nat × SubEntry) : List (List Nat × CommandObj) :=
  match entry.2 with
  | .single s =>
    match out.lookup baseKey with
    | some c => aupdate out baseKey (cmdAppendOption c (subToOption s))
    | none => aupdate out baseKey (freshBaseFromSub baseKey s)
  | .group gs =>
    gs.foldl (fun out gkv =>
      match out.lookup baseKey with
      | some c =>
        match cmdMergeIntoGroup c entry.1 (subToOption gkv.2) with
        | some c' => aupdate out baseKey c'
        | none =>
          aupdate out baseKey
            (cmdAppendOption c (groupWrapOption entry.1 [subToOption gkv.2]))
      | none =>
        aupdate out baseKey (freshBaseFromGroup baseKey entry.1 gkv.2)) out

/-- Model of `Slash.gather_commands` (client.py lines 355-407).  Returns the
produced dict together with the registry's `commands` dict after the call:
for a base that already existed in the registry the produced entry is the
registry's own (shared) object, so every option append performed on it is
also a mutation of the registry. -/
def gather_commands (reg : Registry) :
    (List (List Nat × CommandObj)) × Registry :=
  let out := reg.subcommands.foldl (fun out baseKV =>
      baseKV.2.foldl (fun out subKV => gatherStep out baseKV.1 subKV) out)
    reg.commands
  let regCommands := reg.commands.map (fun kv =>
      if (reg.subcommands.lookup kv.1).isSome then
        (kv.1, (out.lookup kv.1).getD kv.2)
      else kv)
  (out, { reg with commands := regCommands })

/-! ## Concrete fixtures used by witnesses and counterexamples -/

/-- A string option named "opt" without autocomplete. -/
def optA : OptJson :=
  .mk (some 3) (strN "opt") (strN "an option") (some false) none (some false)
    false (some [])

/-- The same option with the autocomplete flag set. -/
def optB : OptJson :=
  .mk (some 3) (strN "opt") (strN "an option") (some false) none (some true)
    false (some [])

/-- The API dict corresponding to `optA` (autocomplete absent/false). -/
def apiOptX : ApiOpt :=
  .mk 3 (strN "opt") (some (strN "an option")) (some false) none (some false)
    (some [])

/-- The option produced by
`SlashOption(str, "color", choices=[ {"name": "red", "value": 1} ])`. -/
def optColor : OptJson :=
  .mk (some 3) (strN "color") (strN "color") (some false)
    (some [⟨strN "red", 1⟩]) (some false) false (some [])

/-- The option produced by the same declaration with a choice generator
attached: autocomplete is forced on and the supplied choices are dropped. -/
def optColorAuto : OptJson :=
  .mk (some 3) (strN "color") (strN "color") (some false) none (some true)
    true (some [])

/-- The `_json` of a declared chat command "ping" with no options. -/
def pingJson : CmdJson :=
  { ctype := 1, cmdName := strN "ping", cmdDescr := some (strN "ping")
    cmdOptions := some [], defaultPermission := some (.pb true) }

/-- "ping" declared for guild 5. -/
def cmdPing : CommandObj :=
  { json := pingJson, guildIds := some [5], guildPermissions := none
    permissions := [] }

/-- "ping" declared globally. -/
def cmdPingGlobalDecl : CommandObj :=
  { json := pingJson, guildIds := none, guildPermissions := none
    permissions := [] }

/-- The remote guild copy of "ping", matching the declaration. -/
def apiPing : ApiCmd :=
  { aid := 7, acname := strN "ping", actype := 1
    acdescr := some (strN "ping"), acoptions := some []
    acdefaultPermission := some (.pb true) }

/-- A remote global copy of "ping" (same name and type). -/
def apiPingGlobal : ApiCmd :=
  { aid := 10, acname := strN "ping", actype := 1
    acdescr := some (strN "ping"), acoptions := some []
    acdefaultPermission := some (.pb true) }

/-- Remote state: guild 5 already holds a matching "ping" with no
permission overwrites, and a stale global "ping" also exists. -/
def stC1 : RemoteState :=
  { globals := [apiPingGlobal], guildCmds := [(5, [apiPing])], perms := [] }

/-- Remote state: no global commands, but guild 5 holds a "ping" copy. -/
def stC2 : RemoteState :=
  { globals := [], guildCmds := [(5, [apiPing])], perms := [] }

/-- A declared subcommand "add" under base "math". -/
def addSub : CommandObj :=
  { json :=
      { ctype := 1, cmdName := strN "add", cmdDescr := some (strN "add")
        cmdOptions := some [], defaultPermission := some (.pb true) }
    guildIds := none, guildPermissions := none, permissions := [] }

/-- An independently declared base command "math" with no options. -/
def mathBase : CommandObj :=
  { json :=
      { ctype := 1, cmdName := strN "math", cmdDescr := some (strN "math")
        cmdOptions := some [], defaultPermission := some (.pb true) }
    guildIds := none, guildPermissions := none, permissions := [] }

/-- Registry with the declared "math" base and the "add" subcommand. -/
def regC4 : Registry :=
  { commands := [(strN "math", mathBase)]
    subcommands := [(strN "math", [(strN "add", .single addSub)])] }

/-- A well-formed asynchronous callback with two parameters. -/
def asyncCb2 : PyCallback :=
  { isCoroutine := true
    params := [⟨strN "ctx", none, false, .pyNone⟩,
               ⟨strN "user", none, false, .pyNone⟩]
    cbName := strN "userinfo", docstringFirst := none }

/-- A synchronous (non-coroutine) callback. -/
def syncCb : PyCallback :=
  { isCoroutine := false
    params := [⟨strN "ctx", none, false, .pyNone⟩]
    cbName := strN "cb", docstringFirst := none }

/-- The state of `ContextCommand(CommandType.User, asyncCb2, "User Info")`:
no `description` or `options` key is ever stored. -/
def ctxCmdC : CommandObj :=
  { json :=
      { ctype := 2, cmdName := strN "User Info", cmdDescr := none
        cmdOptions := none, defaultPermission := some (.pb true) }
    guildIds := none, guildPermissions := none, permissions := [] }

/-! ## Theorems -/

lemma normChar_idem (sep c : Nat) (h1 : ¬(65 ≤ sep ∧ sep ≤ 90)) (h2 : sep ≠ 32) :
    (if lowerN (if lowerN c = 32 then sep else lowerN c) = 32 then sep
     else lowerN (if lowerN c = 32 then sep else lowerN c))
    = (if lowerN c = 32 then sep else lowerN c) := by
  simp only [lowerN]
  split_ifs <;> omega

lemma norm_idem_list (sep : Nat) (h1 : ¬(65 ≤ sep ∧ sep ≤ 90)) (h2 : sep ≠ 32)
    (s : List Nat) :
    replaceN 32 sep ((replaceN 32 sep (s.map lowerN)).map lowerN)
    = replaceN 32 sep (s.map lowerN) := by
  induction s with
  | nil => rfl
  | cons c t ih =>
    simp only [replaceN, List.map_cons] at ih ⊢
    rw [List.cons.injEq]
    exact ⟨normChar_idem sep c h1 h2, ih⟩

/-- C6: name normalization is idempotent, both for the command-name
normalization `format_name` (lowercase, spaces to dashes) and for the
option-name normalization of the `SlashOption.name` setter (lowercase,
spaces to underscores): normalizing an already-normalized name is a no-op. -/
theorem name_normalization_idempotent :
    (∀ s : List Nat, format_name (format_name s) = format_name s)
    ∧ (∀ s : List Nat,
        option_name_format (option_name_format s) = option_name_format s) := by
  constructor
  · intro s
    simpa [format_name] using norm_idem_list 45 (by omega) (by omega) s
  · intro s
    simpa [option_name_format] using norm_idem_list 95 (by omega) (by omega) s

/-- C5 counterexample: for the unmapped string hint "xyz", `any_to_type`
does not fail with an `InvalidArgument`-class error — it returns normally.
In the embedding the function is total and `Option`-valued because the
source has no `raise` statement; at this input it evaluates to `none`
(Python `None`), which its caller must check for.  (The caller at
types.py line 381 then names `InvalidArgument`, which types.py never
imports.) -/
theorem any_to_type_returns_none_counterexample :
    any_to_type (.pyStr (strN "xyz")) = none := by decide

/-- C5 amended: `any_to_type` maps every supported input (native type,
string alias, in-range integer or already-resolved kind, channel-class
list) to an option kind, and for every input with no mapping it returns
`None` instead of raising; `spec_has_mapping` enumerates the supported
family following the spec's wording. -/
theorem any_to_type_domain :
    ∀ x : PyInput, (any_to_type x).isSome = spec_has_mapping x := by
  intro x
  cases x with
  | pyInt n =>
    simp only [any_to_type, spec_has_mapping, PyInput.intVal]
    split_ifs <;> simp_all
  | pyBool b =>
    cases b <;> decide
  | pyOptionType n =>
    simp only [any_to_type, spec_has_mapping, PyInput.intVal]
    split_ifs <;> simp_all
  | pyStr s =>
    simp only [any_to_type, spec_has_mapping, PyInput.intVal]
    split_ifs <;> rfl
  | pyClass c => cases c <;> rfl
  | pyList cs => rfl
  | pyNone => rfl

lemma permPairwise_iff (a b : List PermEntry) :
    permPairwise a b = true ↔ a = b := by
  induction a generalizing b with
  | nil => cases b <;> simp [permPairwise]
  | cons x xs ih =>
    cases b with
    | nil => simp [permPairwise]
    | cons y ys =>
      simp only [permPairwise, List.length_cons, List.zip_cons_cons,
        List.all_cons, Bool.and_eq_true, beq_iff_eq, Nat.add_right_cancel_iff,
        List.cons.injEq] at *
      constructor
      · rintro ⟨hlen, hxy, hall⟩
        exact ⟨hxy, (ih ys).mp ⟨hlen, hall⟩⟩
      · rintro ⟨hxy, htail⟩
        have := (ih ys).mpr htail
        exact ⟨this.1, hxy, this.2⟩

/-- C3 counterexample: a locally declared permission set and a remote
permission dict that describe the same set of `(target_id, target_kind,
allow)` triples but list the allow entries in a different order are *not*
equal under `SlashPermission.__eq__`: the comparison is index-wise, not
set-based. -/
theorem slash_permission_order_counterexample :
    sameTripleSet [⟨1, 2, true⟩, ⟨2, 2, true⟩] [⟨2, 2, true⟩, ⟨1, 2, true⟩] = true
    ∧ slashPermissionEqDict [⟨1, 2, true⟩, ⟨2, 2, true⟩]
        [⟨2, 2, true⟩, ⟨1, 2, true⟩] = false := by decide

/-- C3 amended: `SlashPermission.__eq__` against a remote permission dict
holds iff the allow entries agree index by index and the deny entries agree
index by index — that is, iff the allowed sublists are equal as lists and
the forbidden sublists are equal as lists (order-sensitive within each
class); set-equivalence alone does not suffice. -/
theorem slash_permission_eq_characterization :
    ∀ (p r : List PermEntry),
      slashPermissionEqDict p r = true
      ↔ (permAllowed p = permAllowed r ∧ permForbidden p = permForbidden r) := by
  intro p r
  simp only [slashPermissionEqDict, Bool.and_eq_true, permPairwise_iff]

/-- C8 counterexample: constructing a `SlashOption` with choices and no
autocomplete keeps the choices; a subsequent `option.autocomplete = True`
attribute assignment stores the flag without touching the choices, so the
option then simultaneously has a non-empty choices list and
`autocomplete == True` — the claimed invariant is not preserved by
attribute assignment. -/
theorem slash_option_autocomplete_setter_counterexample :
    SlashOption.init (.pyClass .cstr) (strN "color") none false
        (some [⟨strN "red", 1⟩]) none false none = .ok optColor
    ∧ (SlashOption.setAutocomplete optColor true).choices
        = some [⟨strN "red", 1⟩]
    ∧ (SlashOption.setAutocomplete optColor true).autoGet = true :=
  ⟨rfl, rfl, rfl⟩

/-- C8 amended: after construction the exclusivity holds — a `SlashOption`
built with autocomplete true (or with a choice generator attached, which
forces autocomplete) discards any supplied choices, so a freshly
constructed option whose autocomplete getter is true has no stored choices.
Direct attribute assignment to `autocomplete` afterwards can, however,
produce a state with both (see the counterexample). -/
theorem slash_option_construction_excludes_choices :
    ∀ (argT : PyInput) (nm : List Nat) (ds : Option (List Nat)) (req : Bool)
      (ch : Option (List Choice)) (au : Option Bool) (gen : Bool)
      (ops : Option (List OptJson)) (o : OptJson),
      SlashOption.init argT nm ds req ch au gen ops = .ok o →
      o.autoGet = true → o.choices = none := by
  intro argT nm ds req ch au gen ops o h hauto
  unfold SlashOption.init at h
  cases ds with
  | none =>
    split_ifs at h
    dsimp only at h
    rw [Except.ok.injEq] at h
    subst h
    simp_all [OptJson.autoGet, OptJson.auto, OptJson.choices]
  | some d =>
    split_ifs at h
    dsimp only at h
    by_cases h2 : (decide (d.length > 100) || decide (d.length < 1)) = true
    · rw [if_pos h2] at h
      simp at h
    · rw [if_neg h2] at h
      dsimp only at h
      rw [Except.ok.injEq] at h
      subst h
      simp_all [OptJson.autoGet, OptJson.auto, OptJson.choices]

/-- C8 witness: building the "color" option with a choice generator
attached yields a state with autocomplete on and no choices key. -/
theorem slash_option_construction_excludes_choices_witness :
    optColorAuto.choices = none :=
  slash_option_construction_excludes_choices (.pyClass .cstr) (strN "color")
    none false (some [⟨strN "red", 1⟩]) none true none optColorAuto rfl rfl

/-- C9: `SlashOption.__eq__` between two `SlashOption` instances compares
`argument_type`, `name`, `description`, `required`, `choices` and `options`
but never `autocomplete`: two options agreeing on those six fields are
equal even when their autocomplete flags differ.  The `autocomplete` field
is compared only in the dict branch of `__eq__`: against a raw dict, a
mismatch on `autocomplete` alone already makes the comparison false. -/
theorem slash_option_eq_ignores_autocomplete :
    (∀ a b : OptJson,
      a.type? = b.type? → a.oname = b.oname → a.descr = b.descr →
      a.requiredGet = b.requiredGet → a.choices = b.choices →
      optEqObjList (a.options.getD []) (b.options.getD []) = true →
      optEqObj a b = true)
    ∧ (∀ (d : OptJson) (t : Nat) (n : List Nat) (ds : Option (List Nat))
        (r : Option Bool) (c : Option (List Choice)) (a : Option Bool)
        (o : Option (List ApiOpt)),
      d.reconAuto ≠ a.getD false →
      optEqDict d (.mk t n ds r c a o) = false) := by
  constructor
  · intro a b h1 h2 h3 h4 h5 h6
    simp [optEqObj, h1, h2, h3, h4, h5, h6]
  · intro d t n ds r c a o hne
    have h : (d.reconAuto == a.getD false) = false := by simp [hne]
    rw [optEqDict.eq_def]
    dsimp only
    rw [h, Bool.and_false]

/-- C9 witness: `optA` and `optB` differ only in their autocomplete flag;
object equality holds, while against the raw dict form a flag mismatch
makes equality fail. -/
theorem slash_option_eq_ignores_autocomplete_witness :
    optEqObj optA optB = true ∧ optEqDict optB apiOptX = false :=
  ⟨slash_option_eq_ignores_autocomplete.1 optA optB rfl rfl rfl rfl rfl
    (by decide),
   slash_option_eq_ignores_autocomplete.2 optB 3 (strN "opt")
    (some (strN "an option")) (some false) none (some false) (some [])
    (by decide)⟩

lemma exceptStep_ok {α β : Type} {x : Except DeclErr α}
    {f : α → Except DeclErr β} {b : β} (h : exceptStep x f = .ok b) :
    ∃ a, x = .ok a ∧ f a = .ok b := by
  cases x with
  | error e => simp [exceptStep] at h
  | ok a => exact ⟨a, rfl, h⟩

lemma optionStep_ok {α β : Type} {x : Option α} {err : DeclErr}
    {f : α → Except DeclErr β} {b : β} (h : optionStep x err f = .ok b) :
    ∃ a, x = some a ∧ f a = .ok b := by
  cases x with
  | none => simp [optionStep] at h
  | some a => exact ⟨a, rfl, h⟩

/-- C7: a non-coroutine callback passed to command registration
(`BaseCommand.__init__`) or to listening-component registration
(`Components.add_listening_component`) is rejected with the typed error
`NoAsyncCallback` at registration time; since the registration call errors
out, no command object is produced and the listener table is left
untouched, so such a callback can never be reached at dispatch time. -/
theorem no_async_callback_rejected :
    (∀ (cb : PyCallback) (ctxVariant : Bool) (commandType : Nat)
       (name description : Option (List Nat)) (optionsArg : List OptJson)
       (guildIds : Option (List Int)) (dp : Option PermVal)
       (gp : Option (List (Int × List PermEntry))),
      cb.isCoroutine = false →
      BaseCommand.init ctxVariant commandType (some cb) name description
        optionsArg guildIds dp gp = .error .noAsyncCallback)
    ∧ (∀ (table : ListenerTable) (cb : PyCallback) (cid : List Nat)
        (msgs users : Option (List Int)) (ctype : Option Nat),
      cb.isCoroutine = false →
      add_listening_component table cb cid msgs users ctype
        = .error .noAsyncCallback) := by
  constructor
  · intro cb ctxVariant commandType name description optionsArg gids dp gp h
    simp [BaseCommand.init, exceptStep, h]
  · intro table cb cid msgs users ctype h
    simp [add_listening_component, h]

/-- C7 witness: the synchronous callback `syncCb` is rejected both by
chat-command construction and by listener registration on an empty table. -/
theorem no_async_callback_rejected_witness :
    BaseCommand.init false 1 (some syncCb) (some (strN "ping")) none [] none
      none none = .error .noAsyncCallback
    ∧ add_listening_component [] syncCb (strN "my_id") none none none
      = .error .noAsyncCallback :=
  ⟨no_async_callback_rejected.1 syncCb false 1 (some (strN "ping")) none []
      none none none rfl,
   no_async_callback_rejected.2 [] syncCb (strN "my_id") none none none rfl⟩

/-- C10: a successfully constructed `ContextCommand` always reads `""` for
`description` and `[]` for `options` (its `_json` never holds either key,
whatever the constructor arguments were), and assigning to `description`
or `options` is a silent no-op leaving the state unchanged. -/
theorem context_command_frame :
    ∀ (contextType : Nat) (callback : Option PyCallback)
      (name : Option (List Nat)) (guildIds : Option (List Int))
      (dp : Option PermVal) (gp : Option (List (Int × List PermEntry)))
      (c : CommandObj),
      ContextCommand.init contextType callback name guildIds dp gp = .ok c →
      ContextCommand.descriptionGet c = [] ∧ ContextCommand.optionsGet c = []
      ∧ c.json.cmdDescr = none ∧ c.json.cmdOptions = none
      ∧ (∀ v, ContextCommand.descriptionSet c v = c)
      ∧ (∀ w, ContextCommand.optionsSet c w = c) := by
  intro ct cb name gids dp gp c h
  have main : ∀ (cbo : Option PyCallback),
      BaseCommand.init true ct cbo name none [] gids dp gp = .ok c →
      c.json.cmdDescr = none ∧ c.json.cmdOptions = none := by
    intro cbo hB
    unfold BaseCommand.init at hB
    simp at hB
    obtain ⟨fo, hfo, hB⟩ := exceptStep_ok hB
    have hfo2 : fo = none := by
      cases cbo with
      | none => exact (Except.ok.inj hfo).symm
      | some k =>
        try dsimp only at hfo
        split_ifs at hfo
        all_goals obtain ⟨u, hu, hfo⟩ := exceptStep_ok hfo
        all_goals
          first
          | exact (Except.ok.inj hfo).symm
          | (obtain ⟨ops, hops, hfo⟩ := exceptStep_ok hfo
             exact (Except.ok.inj hfo).symm)
    subst hfo2
    obtain ⟨rawName, hname, hB⟩ := optionStep_ok hB
    try dsimp only at hB
    split_ifs at hB
    all_goals obtain ⟨dsv, hds, hB⟩ := exceptStep_ok hB
    all_goals have hdsv : dsv = none := (Except.ok.inj hds).symm
    all_goals have hc := Except.ok.inj hB
    all_goals subst hc
    all_goals subst hdsv
    all_goals exact ⟨rfl, rfl⟩
  have hshape : c.json.cmdDescr = none ∧ c.json.cmdOptions = none := by
    unfold ContextCommand.init at h
    cases cb with
    | none => exact main none h
    | some k =>
      try dsimp only at h
      split_ifs at h
      all_goals exact main (some k) h
  exact ⟨rfl, rfl, hshape.1, hshape.2, fun v => rfl, fun w => rfl⟩

/-- C10 witness: `ContextCommand(CommandType.User, asyncCb2, "User Info")`
builds `ctxCmdC`, whose description and options are empty and immutable. -/
theorem context_command_frame_witness :
    ContextCommand.descriptionGet ctxCmdC = []
    ∧ ContextCommand.optionsGet ctxCmdC = []
    ∧ ctxCmdC.json.cmdDescr = none ∧ ctxCmdC.json.cmdOptions = none
    ∧ (∀ v, ContextCommand.descriptionSet ctxCmdC v = ctxCmdC)
    ∧ (∀ w, ContextCommand.optionsSet ctxCmdC w = ctxCmdC) :=
  context_command_frame 2 (some asyncCb2) (some (strN "User Info")) none none
    none ctxCmdC rfl

/-- C1 counterexample: guild 5's remote "ping" equals the local declaration
(same name, description, options, default_permission) and its permission
overwrites equal the locally declared (empty) set, yet synchronizing the
guild-declared command issues two write calls — because a stale *global*
"ping" also exists, `add_guild_command` deletes the global copy and
re-creates the guild copy instead of doing nothing. -/
theorem sync_matching_guild_still_writes_counterexample :
    ((findApiCommand (stC1.guild 5) cmdPing.json.cmdName cmdPing.json.ctype).map
        (fun api => cmdEqDict cmdPing api
          && slashPermissionEqDict cmdPing.permissions
               (stC1.permsOf 5 api.aid))).getD false = true
    ∧ (writesOf (add_guild_command stC1 cmdPing 5)).length = 2 := by
  constructor
  · decide
  · decide

/-- C1 amended: when the remote command of the declared name and type equals
the local declaration, synchronization issues only reads — no create,
update, delete or permission-update — provided additionally, for the guild
scope, that no global command of the same name and type is registered
remotely (otherwise the code deletes that global copy and re-creates the
guild command) and the remote permission overwrites equal the declared
ones. -/
theorem sync_no_writes_when_remote_matches :
    (∀ (st : RemoteState) (base : CommandObj) (api : ApiCmd),
      findApiCommand st.globals base.json.cmdName base.json.ctype = some api →
      cmdEqDict base api = true →
      writesOf (add_global_command st base) = [])
    ∧ (∀ (st : RemoteState) (base : CommandObj) (gid : Int) (api : ApiCmd),
      findApiCommand (st.guild gid) base.json.cmdName base.json.ctype
        = some api →
      cmdEqDict base api = true →
      findApiCommand st.globals base.json.cmdName base.json.ctype = none →
      slashPermissionEqDict base.permissions (st.permsOf gid api.aid) = true →
      writesOf (add_guild_command st base gid) = []) := by
  constructor
  · intro st base api hfind heq
    simp [add_global_command, hfind, heq, writesOf, Call.isWrite]
  · intro st base gid api hfind heq hglob hperm
    simp [add_guild_command, hfind, heq, hglob, hperm, writesOf, Call.isWrite]

/-- C1 witness: with only the matching guild copy present (no global
duplicate), syncing "ping" to guild 5 performs reads only. -/
theorem sync_no_writes_when_remote_matches_witness :
    writesOf (add_global_command stC1 cmdPingGlobalDecl) = []
    ∧ writesOf (add_guild_command stC2 cmdPing 5) = [] :=
  ⟨sync_no_writes_when_remote_matches.1 stC1 cmdPingGlobalDecl apiPingGlobal
      rfl (by decide),
   sync_no_writes_when_remote_matches.2 stC2 cmdPing 5 apiPing rfl (by decide)
      rfl (by decide)⟩

/-- C2 counterexample: with a "ping" copy registered in guild 5 and "ping"
now declared globally, `add_global_command` issues exactly one read and the
global create — it never deletes the guild-scoped copy (no guild-scoped
call is made at all), so the guild registration survives alongside the new
global one. -/
theorem global_declaration_never_deletes_guild_copy_counterexample :
    add_global_command stC2 cmdPingGlobalDecl
      = [Call.getGlobalCommands, Call.createGlobalCommand pingJson] := rfl

/-- C2 amended: the deletion-before-creation rule the code implements runs
in the opposite direction of the claim: when a command is declared for a
guild scope and a *global* command of the same name and type exists
remotely, `add_guild_command`'s writes are exactly the deletion of the
global copy followed by the creation of the guild copy — the delete
precedes the create. -/
theorem guild_declaration_deletes_global_before_create :
    ∀ (st : RemoteState) (base : CommandObj) (gid : Int) (g : ApiCmd),
      findApiCommand st.globals base.json.cmdName base.json.ctype = some g →
      writesOf (add_guild_command st base gid)
        = [Call.deleteGlobalCommand g.aid,
           Call.createGuildCommand base.json gid base.permissions] := by
  intro st base gid g hg
  cases hA : findApiCommand (st.guild gid) base.json.cmdName base.json.ctype with
  | none => simp [add_guild_command, hA, hg, writesOf, Call.isWrite]
  | some api => simp [add_guild_command, hA, hg, writesOf, Call.isWrite]

/-- C2 witness: syncing guild-declared "ping" to guild 5 while a global
"ping" (id 10) exists writes the global delete and then the guild create. -/
theorem guild_declaration_deletes_global_before_create_witness :
    writesOf (add_guild_command stC1 cmdPing 5)
      = [Call.deleteGlobalCommand 10,
         Call.createGuildCommand pingJson 5 []] :=
  guild_declaration_deletes_global_before_create stC1 cmdPing 5 apiPingGlobal
    rfl

/-- C4 (code bug): `gather_commands` starts from a *shallow* copy of the
command cache, so with a declared base command "math" and a subcommand
"add" under it, the in-place `options +=` append writes through to the
registry's own "math" object: the first call returns "math" with one
`SUB_COMMAND` option and mutates the registry (0 options before, 1 after),
and a second call with no intervening mutation returns "math" with the
option duplicated (2 options) — gather is neither a pure projection nor
idempotent on this input. -/
theorem gather_commands_mutates_and_diverges :
    ((regC4.commands.lookup (strN "math")).map
        (fun c => (c.json.cmdOptions.getD []).length) = some 0)
    ∧ (((gather_commands regC4).1.lookup (strN "math")).map
        (fun c => (c.json.cmdOptions.getD []).length) = some 1)
    ∧ ((((gather_commands regC4).2.commands).lookup (strN "math")).map
        (fun c => (c.json.cmdOptions.getD []).length) = some 1)
    ∧ (((gather_commands (gather_commands regC4).2).1.lookup (strN "math")).map
        (fun c => (c.json.cmdOptions.getD []).length) = some 2) := by
  refine ⟨by decide, by decide, by decide, by decide⟩
